import Mathlib

/-!
Verification of the pricing engine of the `pixel-price-architect` calculator
(`src/components/PricingCalculator.tsx`, first component variant).

The engine is a pure function from a questionnaire answer set (`PricingData`)
to a quote (`PricingResult`).  Raw numeric inputs are strings read through the
JavaScript coercion `Number(s || 0)`; we model a raw field as either blank or
a numeric value, so the coercion becomes `coerceNum`.  JavaScript numbers are
modelled as exact rationals: every literal in the pricing path (1, 1.5, 5, 3,
2.5, 11, 9, 12, 0.5, 1.1, 0.2, 499, 699, 55) and every intermediate value is
small enough that `Math.round` on IEEE doubles agrees with the exact
`⌊x + 1/2⌋` on ℚ, which we use as `jsRound`.
-/

/-- A raw numeric form field: either blank (empty string) or a numeric
string with value `q`.  Mirrors the `string` fields of `PricingData` in the
source, restricted to the blank-or-numeric inputs the number inputs produce. -/
inductive RawField where
  | blank : RawField
  | num : ℚ → RawField
deriving DecidableEq

/-- Models the JavaScript read `Number(data.x || 0)`: a blank string is falsy
and defaults to 0, a numeric string yields its value unchanged. -/
def coerceNum : RawField → ℚ
  | .blank => 0
  | .num q => q

/-- The `serviceType` union `'graphic' | 'video' | 'both' | ''`. -/
inductive ServiceType where
  | graphic
  | video
  | both
  | unselected
deriving DecidableEq

/-- The pricing-relevant fields of the `PricingData` interface (lead-capture
and free-text fields are omitted: they never reach the pricing arithmetic). -/
structure PricingData where
  serviceType : ServiceType
  smDesigns : RawField
  banners : RawField
  brochures : RawField
  illustrations : RawField
  packaging : RawField
  bilingual : Bool
  videoBasic : RawField
  videoMid : RawField
  videoAdvanced : RawField
  videoSubtitles : Bool
  videoNeedsStock : Bool
  videoNeedsScripting : Bool
deriving DecidableEq

/-- `Math.round`, exactly: round half toward positive infinity,
`⌊x + 1/2⌋`, written with the executable `Rat.floor`. -/
def jsRound (x : ℚ) : ℤ := (x + 1/2).floor

/-- `calculateDesignHours` (source lines 90–97): weighted hour sum of the
graphic counts.  1.5 is written 3/2. -/
def calculateDesignHours (d : PricingData) : ℚ :=
  let sm := coerceNum d.smDesigns
  let banners := coerceNum d.banners
  let brochures := coerceNum d.brochures
  let illustrations := coerceNum d.illustrations
  let packaging := coerceNum d.packaging
  sm * 1 + banners * (3/2) + brochures * 5 + illustrations * 3 + packaging * 5

/-- Return value of `getGraphicTotals`. -/
structure GraphicTotals where
  sm : ℚ
  banners : ℚ
  brochures : ℚ
  illustrations : ℚ
  packaging : ℚ
  totalCount : ℚ
  totalHours : ℚ
deriving DecidableEq

/-- `getGraphicTotals` (source lines 99–108). -/
def getGraphicTotals (d : PricingData) : GraphicTotals :=
  let sm := coerceNum d.smDesigns
  let banners := coerceNum d.banners
  let brochures := coerceNum d.brochures
  let illustrations := coerceNum d.illustrations
  let packaging := coerceNum d.packaging
  let totalCount := sm + banners + brochures + illustrations + packaging
  let totalHours := sm * 1 + banners * (3/2) + brochures * 5 + illustrations * 3 + packaging * 5
  ⟨sm, banners, brochures, illustrations, packaging, totalCount, totalHours⟩

/-- Return value of the two `compute*Pricing` helpers: `{ price, hours }`.
`Math.round` makes the price an integer. -/
structure PriceHours where
  price : ℤ
  hours : ℚ
deriving DecidableEq

/-- `computeGraphicPricing` (source lines 110–124).  Base price 499, base
allotment 55 hours, overage 9/hour, bilingual surcharge factor 1.1 = 11/10. -/
def computeGraphicPricing (d : PricingData) : PriceHours :=
  let totalHours := (getGraphicTotals d).totalHours
  let finalPrice : ℚ := 499
  let finalPrice := if totalHours > 55 then finalPrice + (totalHours - 55) * 9 else finalPrice
  let finalPrice := if d.bilingual then finalPrice * (11/10) else finalPrice
  ⟨jsRound finalPrice, totalHours⟩

/-- `computeVideoPricing` (source lines 126–155).  Base price 699, base
allotment 55 hours, overage 12/hour; 2.5 is written 5/2 and 0.5 is 1/2.
`videoSubtitles` is deliberately not read (subtitles are included). -/
def computeVideoPricing (d : PricingData) : PriceHours :=
  let basic := coerceNum d.videoBasic
  let mid := coerceNum d.videoMid
  let adv := coerceNum d.videoAdvanced
  let totalHours := basic * (5/2) + mid * 5 + adv * 11
  let totalVideos := basic + mid + adv
  let totalHours := if d.videoNeedsScripting then totalHours + totalVideos * 1 else totalHours
  let totalHours := if d.videoNeedsStock then totalHours + totalVideos * (1/2) else totalHours
  let finalPrice : ℚ := 699
  let finalPrice := if totalHours > 55 then finalPrice + (totalHours - 55) * 12 else finalPrice
  ⟨jsRound finalPrice, totalHours⟩

/-- The `breakdown` record of `PricingResult`. -/
structure Breakdown where
  basePrice : ℤ
  volumeAdjustment : ℤ
  complexityAdjustment : ℤ
  bilingualBonus : ℤ
  addOns : ℤ
deriving DecidableEq

/-- The `PricingResult` interface (source lines 38–49). -/
structure PricingResult where
  monthlyPrice : ℤ
  breakdown : Breakdown
  includes : List String
  estimatedHours : ℚ
deriving DecidableEq

/-- The initial `result` value of `calculatePricing` (source lines 158–169). -/
def zeroResult : PricingResult :=
  { monthlyPrice := 0
    breakdown := ⟨0, 0, 0, 0, 0⟩
    includes := []
    estimatedHours := 0 }

/-- `calculatePricing` (source lines 157–209).  The mutation of `result`
through the `if / else if` chain is written as a match on `serviceType`; the
`breakdown` record is never assigned after initialisation, exactly as in the
source.  The template literal for the video count is string concatenation. -/
def calculatePricing (d : PricingData) : PricingResult :=
  match d.serviceType with
  | .graphic =>
      let g := computeGraphicPricing d
      { zeroResult with
        monthlyPrice := g.price
        estimatedHours := g.hours
        includes := ["Graphic Design Package"] ++
          (if d.bilingual then ["Arabic & English designs"] else []) }
  | .video =>
      let v := computeVideoPricing d
      let totalVideos := coerceNum d.videoBasic + coerceNum d.videoMid + coerceNum d.videoAdvanced
      { zeroResult with
        monthlyPrice := v.price
        estimatedHours := v.hours
        includes := ["Video Editing Package"] ++
          (if totalVideos > 0 then
            [toString totalVideos ++ " videos/month (mix of basic, mid-level, advanced)"] else []) ++
          (if d.videoSubtitles then ["Subtitles included"] else []) ++
          (if d.videoNeedsScripting then ["Concept, scripting & planning support"] else []) ++
          (if d.videoNeedsStock then ["Premium stock footage/music licensing"] else []) }
  | .both =>
      let g := computeGraphicPricing d
      let v := computeVideoPricing d
      let subtotal := g.price + v.price
      let discount := jsRound ((subtotal : ℚ) * (1/5))
      let totalVideos := coerceNum d.videoBasic + coerceNum d.videoMid + coerceNum d.videoAdvanced
      { zeroResult with
        monthlyPrice := subtotal - discount
        estimatedHours := g.hours + v.hours
        includes := ["Complete Creative Package: Design + Video",
            "Bundle discount applied (20%)"] ++
          (if d.bilingual then ["Arabic & English designs included"] else []) ++
          (if totalVideos > 0 then
            [toString totalVideos ++ " videos/month (mix of basic, mid-level, advanced)"] else []) ++
          (if d.videoSubtitles then ["Subtitles included for videos"] else []) ++
          (if d.videoNeedsScripting then ["Concept, scripting & planning support"] else []) ++
          (if d.videoNeedsStock then ["Premium stock footage/music licensing"] else []) }
  | .unselected => zeroResult

/-- Builds a `PricingData` whose item counts are the given natural numbers:
the shape of every well-formed questionnaire answer set. -/
def mkData (st : ServiceType) (sm banners brochures illustrations packaging : ℕ)
    (bilingual : Bool) (videoBasic videoMid videoAdvanced : ℕ)
    (videoSubtitles videoNeedsStock videoNeedsScripting : Bool) : PricingData :=
  { serviceType := st
    smDesigns := .num sm
    banners := .num banners
    brochures := .num brochures
    illustrations := .num illustrations
    packaging := .num packaging
    bilingual := bilingual
    videoBasic := .num videoBasic
    videoMid := .num videoMid
    videoAdvanced := .num videoAdvanced
    videoSubtitles := videoSubtitles
    videoNeedsStock := videoNeedsStock
    videoNeedsScripting := videoNeedsScripting }

/-- The eight item-count fields of the questionnaire. -/
inductive CountField where
  | smDesigns
  | banners
  | brochures
  | illustrations
  | packaging
  | videoBasic
  | videoMid
  | videoAdvanced
deriving DecidableEq

/-- Overwrites a single item-count field with the natural number `n`. -/
def setCount (f : CountField) (n : ℕ) (d : PricingData) : PricingData :=
  match f with
  | .smDesigns => { d with smDesigns := .num n }
  | .banners => { d with banners := .num n }
  | .brochures => { d with brochures := .num n }
  | .illustrations => { d with illustrations := .num n }
  | .packaging => { d with packaging := .num n }
  | .videoBasic => { d with videoBasic := .num n }
  | .videoMid => { d with videoMid := .num n }
  | .videoAdvanced => { d with videoAdvanced := .num n }

/-- A raw field is well formed when it is blank or holds a natural number:
the shape that the bounded number inputs of the form are meant to deliver. -/
def NatLike (r : RawField) : Prop := r = .blank ∨ ∃ n : ℕ, r = .num n

/-- A generic fully populated sample request. -/
def sampleData : PricingData := mkData .graphic 1 2 3 4 5 true 6 7 8 true true true

/-- Video request with 15 basic edits and nothing else. -/
def video15 : PricingData := mkData .video 0 0 0 0 0 false 15 0 0 false false false

/-- Graphic request with every count zero and no flags. -/
def allZeroGraphic : PricingData := mkData .graphic 0 0 0 0 0 false 0 0 0 false false false

/-- A graphic request whose `smDesigns` field holds the numeric string `-5`
(the number inputs are labelled `min 0` but the engine never clamps). -/
def negInput : PricingData :=
  ⟨.graphic, .num (-5), .blank, .blank, .blank, .blank, false,
    .blank, .blank, .blank, false, false, false⟩

/-- A bundle request with items in both categories. -/
def sampleBoth : PricingData := mkData .both 2 0 0 0 0 true 3 0 0 true false false

/-- A request on which no service type was selected. -/
def sampleUnselected : PricingData := mkData .unselected 3 1 4 1 5 true 9 2 6 true false true

/-- A bilingual graphic request. -/
def sampleBilingualGraphic : PricingData := mkData .graphic 1 0 0 0 0 true 0 0 0 false false false

/-- `jsRound` is the floor of the argument shifted by one half. -/
theorem jsRound_eq_floor (x : ℚ) : jsRound x = ⌊x + 1/2⌋ := by
  rw [jsRound, Rat.floor_def', ← Rat.floor_def]

/-- Evaluation rule for `jsRound` from the two floor bounds. -/
theorem jsRound_eq_of {x : ℚ} {z : ℤ} (h1 : (z : ℚ) ≤ x + 1/2) (h2 : x + 1/2 < (z : ℚ) + 1) :
    jsRound x = z := by
  rw [jsRound_eq_floor]
  exact Int.floor_eq_iff.mpr ⟨h1, h2⟩

/-- `jsRound` is monotone. -/
theorem jsRound_mono {x y : ℚ} (h : x ≤ y) : jsRound x ≤ jsRound y := by
  rw [jsRound_eq_floor, jsRound_eq_floor]
  exact Int.floor_mono (by linarith)

/-- `jsRound` fixes integers. -/
theorem jsRound_intCast (n : ℤ) : jsRound (n : ℚ) = n :=
  jsRound_eq_of (by linarith) (by linarith)

/-- The graphic price, spelled through the returned hours. -/
theorem computeGraphicPricing_price_eq (d : PricingData) :
    (computeGraphicPricing d).price =
      jsRound (if d.bilingual then
          (if (getGraphicTotals d).totalHours > 55 then
            499 + ((getGraphicTotals d).totalHours - 55) * 9 else 499) * (11/10)
        else
          (if (getGraphicTotals d).totalHours > 55 then
            499 + ((getGraphicTotals d).totalHours - 55) * 9 else 499)) := rfl

/-- The graphic hours are the weighted total hours. -/
theorem computeGraphicPricing_hours_eq (d : PricingData) :
    (computeGraphicPricing d).hours = (getGraphicTotals d).totalHours := rfl

/-- The video price, spelled through the returned hours. -/
theorem computeVideoPricing_price_eq (d : PricingData) :
    (computeVideoPricing d).price =
      jsRound (if (computeVideoPricing d).hours > 55 then
        699 + ((computeVideoPricing d).hours - 55) * 12 else 699) := rfl

/-- The base-plus-overage expression is monotone in the hours. -/
theorem ite_overage_mono (base rate : ℚ) {h h' : ℚ} (hr : 0 ≤ rate) (hh : h ≤ h') :
    (if h > 55 then base + (h - 55) * rate else base) ≤
      (if h' > 55 then base + (h' - 55) * rate else base) := by
  split_ifs with h1 h2
  · have := mul_le_mul_of_nonneg_right (sub_le_sub_right hh (55 : ℚ)) hr
    linarith
  · linarith
  · have := mul_nonneg (by linarith : (0 : ℚ) ≤ h' - 55) hr
    linarith
  · exact le_rfl

/-- The base-plus-overage expression is at least the base. -/
theorem le_ite_overage (base rate : ℚ) (h : ℚ) (hr : 0 ≤ rate) :
    base ≤ (if h > 55 then base + (h - 55) * rate else base) := by
  split_ifs with h1
  · have := mul_nonneg (by linarith : (0 : ℚ) ≤ h - 55) hr
    linarith
  · exact le_rfl

/-- The graphic price is monotone in the total hours when the bilingual flag
agrees. -/
theorem computeGraphicPricing_price_mono {d d' : PricingData} (hb : d.bilingual = d'.bilingual)
    (hh : (getGraphicTotals d).totalHours ≤ (getGraphicTotals d').totalHours) :
    (computeGraphicPricing d).price ≤ (computeGraphicPricing d').price := by
  rw [computeGraphicPricing_price_eq, computeGraphicPricing_price_eq, hb]
  have hX := ite_overage_mono 499 9 (by norm_num) hh
  apply jsRound_mono
  cases d'.bilingual with
  | false => simpa using hX
  | true =>
      simp only [if_pos rfl]
      exact mul_le_mul_of_nonneg_right hX (by norm_num)

/-- The video price is monotone in the returned hours. -/
theorem computeVideoPricing_price_mono {d d' : PricingData}
    (hh : (computeVideoPricing d).hours ≤ (computeVideoPricing d').hours) :
    (computeVideoPricing d).price ≤ (computeVideoPricing d').price := by
  rw [computeVideoPricing_price_eq, computeVideoPricing_price_eq]
  exact jsRound_mono (ite_overage_mono 699 12 (by norm_num) hh)

/-- The graphic price never goes below the 499 base, whatever the raw input. -/
theorem le_computeGraphicPricing_price (d : PricingData) :
    499 ≤ (computeGraphicPricing d).price := by
  rw [computeGraphicPricing_price_eq]
  have hX := le_ite_overage 499 9 (getGraphicTotals d).totalHours (by norm_num)
  have h2 : (499 : ℚ) ≤ (if d.bilingual then
      (if (getGraphicTotals d).totalHours > 55 then
        499 + ((getGraphicTotals d).totalHours - 55) * 9 else 499) * (11/10)
    else
      (if (getGraphicTotals d).totalHours > 55 then
        499 + ((getGraphicTotals d).totalHours - 55) * 9 else 499)) := by
    cases d.bilingual with
    | false => simpa using hX
    | true =>
        simp only [eq_self_iff_true, if_true]
        nlinarith
  calc (499 : ℤ) = jsRound ((499 : ℤ) : ℚ) := (jsRound_intCast 499).symm
    _ ≤ _ := jsRound_mono (by push_cast; exact h2)

/-- The video price never goes below the 699 base, whatever the raw input. -/
theorem le_computeVideoPricing_price (d : PricingData) :
    699 ≤ (computeVideoPricing d).price := by
  rw [computeVideoPricing_price_eq]
  have hX := le_ite_overage 699 12 (computeVideoPricing d).hours (by norm_num)
  calc (699 : ℤ) = jsRound ((699 : ℤ) : ℚ) := (jsRound_intCast 699).symm
    _ ≤ _ := jsRound_mono (by push_cast; exact hX)

/-- The bundle total `s - round(s * 0.2)` is monotone in the subtotal. -/
theorem bundle_total_mono {s s' : ℤ} (h : s ≤ s') :
    s - jsRound ((s : ℚ) * (1/5)) ≤ s' - jsRound ((s' : ℚ) * (1/5)) := by
  have hq : (s : ℚ) ≤ (s' : ℚ) := by exact_mod_cast h
  have h1 : (s' : ℚ) * (1/5) + 1/2 ≤ ((s : ℚ) * (1/5) + 1/2) + ((s' - s : ℤ) : ℚ) := by
    push_cast
    linarith
  have h2 : jsRound ((s' : ℚ) * (1/5)) ≤ jsRound ((s : ℚ) * (1/5)) + (s' - s) := by
    rw [jsRound_eq_floor, jsRound_eq_floor]
    calc ⌊(s' : ℚ) * (1/5) + 1/2⌋ ≤ ⌊((s : ℚ) * (1/5) + 1/2) + ((s' - s : ℤ) : ℚ)⌋ :=
          Int.floor_mono h1
      _ = ⌊(s : ℚ) * (1/5) + 1/2⌋ + (s' - s) := Int.floor_add_int _ _
  omega

/-- `calculatePricing` on an unselected service type is the zero result. -/
theorem calculatePricing_unselected {d : PricingData} (h : d.serviceType = .unselected) :
    calculatePricing d = zeroResult := by
  simp [calculatePricing, h]

/-- The graphic branch of `calculatePricing`: the monthly price. -/
theorem calculatePricing_monthly_graphic {d : PricingData} (h : d.serviceType = .graphic) :
    (calculatePricing d).monthlyPrice = (computeGraphicPricing d).price := by
  simp [calculatePricing, h]

/-- The graphic branch of `calculatePricing`: the estimated hours. -/
theorem calculatePricing_hours_graphic {d : PricingData} (h : d.serviceType = .graphic) :
    (calculatePricing d).estimatedHours = (getGraphicTotals d).totalHours := by
  simp [calculatePricing, h, computeGraphicPricing_hours_eq]

/-- The video branch of `calculatePricing`: the monthly price. -/
theorem calculatePricing_monthly_video {d : PricingData} (h : d.serviceType = .video) :
    (calculatePricing d).monthlyPrice = (computeVideoPricing d).price := by
  simp [calculatePricing, h]

/-- The video branch of `calculatePricing`: the estimated hours. -/
theorem calculatePricing_hours_video {d : PricingData} (h : d.serviceType = .video) :
    (calculatePricing d).estimatedHours = (computeVideoPricing d).hours := by
  simp [calculatePricing, h]

/-- The bundle branch of `calculatePricing`: the monthly price. -/
theorem calculatePricing_monthly_both {d : PricingData} (h : d.serviceType = .both) :
    (calculatePricing d).monthlyPrice =
      ((computeGraphicPricing d).price + (computeVideoPricing d).price) -
        jsRound (((computeGraphicPricing d).price + (computeVideoPricing d).price : ℤ) * (1/5)) := by
  simp [calculatePricing, h]

/-- The bundle branch of `calculatePricing`: the estimated hours. -/
theorem calculatePricing_hours_both {d : PricingData} (h : d.serviceType = .both) :
    (calculatePricing d).estimatedHours =
      (computeGraphicPricing d).hours + (computeVideoPricing d).hours := by
  simp [calculatePricing, h]

/-- The `breakdown` record of every result keeps its initial value. -/
theorem calculatePricing_breakdown (d : PricingData) :
    (calculatePricing d).breakdown = zeroResult.breakdown := by
  cases h : d.serviceType <;> simp [calculatePricing, h]

/-- The monthly price is monotone in the hour totals when the service type and
the bilingual flag agree. -/
theorem monthly_mono {d d' : PricingData} (hst : d.serviceType = d'.serviceType)
    (hb : d.bilingual = d'.bilingual)
    (hg : (getGraphicTotals d).totalHours ≤ (getGraphicTotals d').totalHours)
    (hv : (computeVideoPricing d).hours ≤ (computeVideoPricing d').hours) :
    (calculatePricing d).monthlyPrice ≤ (calculatePricing d').monthlyPrice := by
  cases h : d'.serviceType with
  | graphic =>
      rw [calculatePricing_monthly_graphic (hst.trans h), calculatePricing_monthly_graphic h]
      exact computeGraphicPricing_price_mono hb hg
  | video =>
      rw [calculatePricing_monthly_video (hst.trans h), calculatePricing_monthly_video h]
      exact computeVideoPricing_price_mono hv
  | both =>
      rw [calculatePricing_monthly_both (hst.trans h), calculatePricing_monthly_both h]
      have h1 := computeGraphicPricing_price_mono hb hg
      have h2 := computeVideoPricing_price_mono hv
      exact bundle_total_mono (by omega)
  | unselected =>
      rw [calculatePricing_unselected (hst.trans h), calculatePricing_unselected h]

/-- Natural-number item counts give graphic hour totals with granularity one
half: twice the total is a natural number. -/
theorem graphic_hours_natgrain (st : ServiceType) (sm banners brochures illustrations packaging : ℕ)
    (bilingual : Bool) (vb vm va : ℕ) (sub stk scr : Bool) :
    ∃ N : ℕ, 2 * (getGraphicTotals
      (mkData st sm banners brochures illustrations packaging bilingual vb vm va sub stk scr)).totalHours = N := by
  refine ⟨2 * sm + 3 * banners + 10 * brochures + 6 * illustrations + 10 * packaging, ?_⟩
  simp [getGraphicTotals, mkData, coerceNum]
  ring

/-- Natural-number item counts give video hour totals with granularity one
half: twice the total is a natural number. -/
theorem video_hours_natgrain (st : ServiceType) (sm banners brochures illustrations packaging : ℕ)
    (bilingual : Bool) (vb vm va : ℕ) (sub stk scr : Bool) :
    ∃ N : ℕ, 2 * (computeVideoPricing
      (mkData st sm banners brochures illustrations packaging bilingual vb vm va sub stk scr)).hours = N := by
  cases scr with
  | false =>
      cases stk with
      | false =>
          refine ⟨5 * vb + 10 * vm + 22 * va, ?_⟩
          simp [computeVideoPricing, mkData, coerceNum]
          ring
      | true =>
          refine ⟨5 * vb + 10 * vm + 22 * va + (vb + vm + va), ?_⟩
          simp [computeVideoPricing, mkData, coerceNum]
          ring
  | true =>
      cases stk with
      | false =>
          refine ⟨5 * vb + 10 * vm + 22 * va + 2 * (vb + vm + va), ?_⟩
          simp [computeVideoPricing, mkData, coerceNum]
          ring
      | true =>
          refine ⟨5 * vb + 10 * vm + 22 * va + 2 * (vb + vm + va) + (vb + vm + va), ?_⟩
          simp [computeVideoPricing, mkData, coerceNum]
          ring

/-- A half-integer quantity strictly above 55 is at least 55.5. -/
theorem half_grain_ge {h : ℚ} (hgt : 55 < h) (hN : ∃ N : ℕ, 2 * h = N) : (111 : ℚ) ≤ 2 * h := by
  obtain ⟨N, hN⟩ := hN
  have h110 : (110 : ℚ) < N := by
    rw [← hN]
    linarith
  have h110' : (110 : ℕ) < N := by exact_mod_cast h110
  rw [hN]
  exact_mod_cast h110'

/-- Within the 55-hour allotment the graphic price is the base, with the 10%
bilingual surcharge rounding to 549. -/
theorem graphicPrice_of_le {d : PricingData} (h : (getGraphicTotals d).totalHours ≤ 55) :
    (computeGraphicPricing d).price = if d.bilingual then 549 else 499 := by
  rw [computeGraphicPricing_price_eq]
  have hno : (if (getGraphicTotals d).totalHours > 55 then
      499 + ((getGraphicTotals d).totalHours - 55) * 9 else 499) = (499 : ℚ) :=
    if_neg (not_lt.mpr h)
  rw [hno]
  cases d.bilingual with
  | false => simpa using jsRound_eq_of (x := 499) (z := 499) (by norm_num) (by norm_num)
  | true => simpa using jsRound_eq_of (x := 499 * (11/10)) (z := 549) (by norm_num) (by norm_num)

/-- Strictly above the allotment (by the half-hour granularity) the graphic
price strictly exceeds the base price. -/
theorem graphicPrice_of_gt {d : PricingData} (hgt : 55 < (getGraphicTotals d).totalHours)
    (hgr : (111 : ℚ) ≤ 2 * (getGraphicTotals d).totalHours) :
    (if d.bilingual then (549 : ℤ) else 499) < (computeGraphicPricing d).price := by
  rw [computeGraphicPricing_price_eq]
  have hyes : (if (getGraphicTotals d).totalHours > 55 then
      499 + ((getGraphicTotals d).totalHours - 55) * 9 else 499) =
      499 + ((getGraphicTotals d).totalHours - 55) * 9 :=
    if_pos hgt
  rw [hyes]
  have hX : (1007/2 : ℚ) ≤ 499 + ((getGraphicTotals d).totalHours - 55) * 9 := by linarith
  cases d.bilingual with
  | false =>
      simp only [Bool.false_eq_true, if_false]
      have h504 : jsRound (1007/2 : ℚ) = 504 := jsRound_eq_of (by norm_num) (by norm_num)
      calc (499 : ℤ) < 504 := by norm_num
        _ = jsRound (1007/2 : ℚ) := h504.symm
        _ ≤ _ := jsRound_mono hX
  | true =>
      simp only [if_true]
      have hX' : (11077/20 : ℚ) ≤ (499 + ((getGraphicTotals d).totalHours - 55) * 9) * (11/10) := by
        linarith
      have h554 : jsRound (11077/20 : ℚ) = 554 := jsRound_eq_of (by norm_num) (by norm_num)
      calc (549 : ℤ) < 554 := by norm_num
        _ = jsRound (11077/20 : ℚ) := h554.symm
        _ ≤ _ := jsRound_mono hX'

/-- Within the 55-hour allotment the video price is exactly the 699 base. -/
theorem videoPrice_of_le {d : PricingData} (h : (computeVideoPricing d).hours ≤ 55) :
    (computeVideoPricing d).price = 699 := by
  rw [computeVideoPricing_price_eq, if_neg (not_lt.mpr h)]
  simpa using jsRound_eq_of (x := 699) (z := 699) (by norm_num) (by norm_num)

/-- Strictly above the allotment (by the half-hour granularity) the video
price strictly exceeds the base price. -/
theorem videoPrice_of_gt {d : PricingData} (hgt : 55 < (computeVideoPricing d).hours)
    (hgr : (111 : ℚ) ≤ 2 * (computeVideoPricing d).hours) :
    (699 : ℤ) < (computeVideoPricing d).price := by
  rw [computeVideoPricing_price_eq, if_pos hgt]
  have hX : (705 : ℚ) ≤ 699 + ((computeVideoPricing d).hours - 55) * 12 := by linarith
  have h705 : jsRound (705 : ℚ) = 705 := jsRound_eq_of (by norm_num) (by norm_num)
  calc (699 : ℤ) < 705 := by norm_num
    _ = jsRound (705 : ℚ) := h705.symm
    _ ≤ _ := jsRound_mono hX

/-- C1 (counterexample): at the all-zero graphic request the five breakdown
components sum to 0 while `monthlyPrice` is 499, so the components do not sum
to `monthlyPrice` on this valid request. -/
theorem breakdown_sum_ne_monthlyPrice :
    (calculatePricing allZeroGraphic).breakdown.basePrice +
      (calculatePricing allZeroGraphic).breakdown.volumeAdjustment +
      (calculatePricing allZeroGraphic).breakdown.complexityAdjustment +
      (calculatePricing allZeroGraphic).breakdown.bilingualBonus +
      (calculatePricing allZeroGraphic).breakdown.addOns = 0 ∧
    (calculatePricing allZeroGraphic).monthlyPrice = 499 ∧
    (calculatePricing allZeroGraphic).breakdown.basePrice +
      (calculatePricing allZeroGraphic).breakdown.volumeAdjustment +
      (calculatePricing allZeroGraphic).breakdown.complexityAdjustment +
      (calculatePricing allZeroGraphic).breakdown.bilingualBonus +
      (calculatePricing allZeroGraphic).breakdown.addOns ≠
      (calculatePricing allZeroGraphic).monthlyPrice := by
  have h1 : (calculatePricing allZeroGraphic).breakdown.basePrice +
      (calculatePricing allZeroGraphic).breakdown.volumeAdjustment +
      (calculatePricing allZeroGraphic).breakdown.complexityAdjustment +
      (calculatePricing allZeroGraphic).breakdown.bilingualBonus +
      (calculatePricing allZeroGraphic).breakdown.addOns = 0 := by
    rw [calculatePricing_breakdown]
    rfl
  have h2 : (calculatePricing allZeroGraphic).monthlyPrice = 499 := by
    rw [calculatePricing_monthly_graphic rfl, graphicPrice_of_le ?hle]
    case hle =>
      simp [getGraphicTotals, allZeroGraphic, mkData, coerceNum]
    rfl
  refine ⟨h1, h2, ?_⟩
  rw [h1, h2]
  norm_num

/-- C1 (amended): the five breakdown components of every result are all zero
(the `breakdown` record is never populated), so they sum to 0 and not to
`monthlyPrice` except on the degenerate zero result. -/
theorem breakdown_components_always_zero (d : PricingData) :
    (calculatePricing d).breakdown = ⟨0, 0, 0, 0, 0⟩ := by
  rw [calculatePricing_breakdown]
  rfl

/-- C5: in the graphic branch with the bilingual flag set, the 10% surcharge
multiplies the running total of base price plus hourly overage: the price is
the rounding of `(499 + max 0 (hours - 55) * 9) * 1.1`. -/
theorem bilingual_on_running_total {d : PricingData} (hst : d.serviceType = .graphic)
    (hb : d.bilingual = true) :
    (calculatePricing d).monthlyPrice =
      jsRound ((499 + max 0 ((getGraphicTotals d).totalHours - 55) * 9) * (11/10)) := by
  rw [calculatePricing_monthly_graphic hst, computeGraphicPricing_price_eq, hb]
  simp only [if_true]
  have hmax : (if (getGraphicTotals d).totalHours > 55 then
      499 + ((getGraphicTotals d).totalHours - 55) * 9 else 499) =
      499 + max 0 ((getGraphicTotals d).totalHours - 55) * 9 := by
    rcases le_or_lt (getGraphicTotals d).totalHours 55 with h | h
    · rw [if_neg (not_lt.mpr h), max_eq_left (by linarith)]
      ring
    · rw [if_pos h, max_eq_right (by linarith)]
  rw [hmax]

/-- C5 witness: the bilingual one-design graphic request. -/
theorem bilingual_on_running_total_witness :
    sampleBilingualGraphic.serviceType = .graphic ∧ sampleBilingualGraphic.bilingual = true ∧
    (calculatePricing sampleBilingualGraphic).monthlyPrice =
      jsRound ((499 + max 0 ((getGraphicTotals sampleBilingualGraphic).totalHours - 55) * 9) *
        (11/10)) :=
  ⟨rfl, rfl, bilingual_on_running_total rfl rfl⟩

/-- C6: a request with no selected service category yields the zero-valued
result: price 0, all breakdown components 0, empty includes, zero hours.  The
engine is a total function, so no input can raise an exception. -/
theorem unselected_gives_zero {d : PricingData} (h : d.serviceType = .unselected) :
    calculatePricing d =
      { monthlyPrice := 0, breakdown := ⟨0, 0, 0, 0, 0⟩, includes := [], estimatedHours := 0 } := by
  rw [calculatePricing_unselected h]
  rfl

/-- C6 witness: a fully populated request with no category selected. -/
theorem unselected_gives_zero_witness :
    sampleUnselected.serviceType = .unselected ∧
    calculatePricing sampleUnselected =
      { monthlyPrice := 0, breakdown := ⟨0, 0, 0, 0, 0⟩, includes := [], estimatedHours := 0 } :=
  ⟨rfl, unselected_gives_zero rfl⟩

/-- C8: the monthly price is at least the base price of the selected
category: 499 for graphic, 699 for video, and 958 (the rounded 20%-discounted
combined base) for the bundle.  It is an integer by construction
(`monthlyPrice : ℤ`, produced by `Math.round` arithmetic). -/
theorem monthlyPrice_ge_base (d : PricingData) :
    (d.serviceType = .graphic → 499 ≤ (calculatePricing d).monthlyPrice) ∧
    (d.serviceType = .video → 699 ≤ (calculatePricing d).monthlyPrice) ∧
    (d.serviceType = .both → 958 ≤ (calculatePricing d).monthlyPrice) := by
  refine ⟨fun h => ?_, fun h => ?_, fun h => ?_⟩
  · rw [calculatePricing_monthly_graphic h]
    exact le_computeGraphicPricing_price d
  · rw [calculatePricing_monthly_video h]
    exact le_computeVideoPricing_price d
  · rw [calculatePricing_monthly_both h]
    have hg := le_computeGraphicPricing_price d
    have hv := le_computeVideoPricing_price d
    have hs : (1198 : ℤ) ≤ (computeGraphicPricing d).price + (computeVideoPricing d).price := by
      omega
    have hmono := bundle_total_mono hs
    have h240 : jsRound (((1198 : ℤ) : ℚ) * (1/5)) = 240 :=
      jsRound_eq_of (by norm_num) (by norm_num)
    omega

/-- C8 witness: the sample bundle request. -/
theorem monthlyPrice_ge_base_witness :
    sampleBoth.serviceType = .both ∧ 958 ≤ (calculatePricing sampleBoth).monthlyPrice :=
  ⟨rfl, (monthlyPrice_ge_base sampleBoth).2.2 rfl⟩

/-- C10: toggling `videoSubtitles` never changes the monthly price, the
estimated hours or the breakdown of any request; only the includes list can
differ. -/
theorem videoSubtitles_only_affects_includes (d : PricingData) (b : Bool) :
    (calculatePricing { d with videoSubtitles := b }).monthlyPrice =
      (calculatePricing d).monthlyPrice ∧
    (calculatePricing { d with videoSubtitles := b }).estimatedHours =
      (calculatePricing d).estimatedHours ∧
    (calculatePricing { d with videoSubtitles := b }).breakdown =
      (calculatePricing d).breakdown := by
  set e : PricingData := { d with videoSubtitles := b } with he
  have hst : e.serviceType = d.serviceType := rfl
  have hG : computeGraphicPricing e = computeGraphicPricing d := rfl
  have hV : computeVideoPricing e = computeVideoPricing d := rfl
  refine ⟨?_, ?_, by rw [calculatePricing_breakdown, calculatePricing_breakdown]⟩
  · cases h : d.serviceType with
    | graphic =>
        rw [calculatePricing_monthly_graphic (hst.trans h),
          calculatePricing_monthly_graphic h, hG]
    | video =>
        rw [calculatePricing_monthly_video (hst.trans h),
          calculatePricing_monthly_video h, hV]
    | both =>
        rw [calculatePricing_monthly_both (hst.trans h),
          calculatePricing_monthly_both h, hG, hV]
    | unselected =>
        rw [calculatePricing_unselected (hst.trans h), calculatePricing_unselected h]
  · cases h : d.serviceType with
    | graphic =>
        rw [calculatePricing_hours_graphic (hst.trans h),
          calculatePricing_hours_graphic h]
        rfl
    | video =>
        rw [calculatePricing_hours_video (hst.trans h),
          calculatePricing_hours_video h, hV]
    | both =>
        rw [calculatePricing_hours_both (hst.trans h),
          calculatePricing_hours_both h, hG, hV]
    | unselected =>
        rw [calculatePricing_unselected (hst.trans h), calculatePricing_unselected h]
/-- C2: with nonzero graphic and video item counts, the bundle price is
strictly below the sum of the standalone graphic and video prices computed
from the same counts and flags. -/
theorem bundle_lt_sum_standalone (sm banners brochures illustrations packaging : ℕ)
    (bilingual : Bool) (vb vm va : ℕ) (sub stk scr : Bool)
    (_hg : 0 < sm + banners + brochures + illustrations + packaging) (_hv : 0 < vb + vm + va) :
    (calculatePricing
        (mkData .both sm banners brochures illustrations packaging bilingual vb vm va sub stk scr)).monthlyPrice <
      (calculatePricing
        (mkData .graphic sm banners brochures illustrations packaging bilingual vb vm va sub stk scr)).monthlyPrice +
      (calculatePricing
        (mkData .video sm banners brochures illustrations packaging bilingual vb vm va sub stk scr)).monthlyPrice := by
  rw [calculatePricing_monthly_both rfl, calculatePricing_monthly_graphic rfl,
    calculatePricing_monthly_video rfl]
  have hG : computeGraphicPricing
      (mkData .both sm banners brochures illustrations packaging bilingual vb vm va sub stk scr) =
      computeGraphicPricing
      (mkData .graphic sm banners brochures illustrations packaging bilingual vb vm va sub stk scr) := rfl
  have hV : computeVideoPricing
      (mkData .both sm banners brochures illustrations packaging bilingual vb vm va sub stk scr) =
      computeVideoPricing
      (mkData .video sm banners brochures illustrations packaging bilingual vb vm va sub stk scr) := rfl
  rw [hG, hV]
  set P := (computeGraphicPricing
      (mkData .graphic sm banners brochures illustrations packaging bilingual vb vm va sub stk scr)).price with hP
  set Q := (computeVideoPricing
      (mkData .video sm banners brochures illustrations packaging bilingual vb vm va sub stk scr)).price with hQ
  have hg' := le_computeGraphicPricing_price
    (mkData .graphic sm banners brochures illustrations packaging bilingual vb vm va sub stk scr)
  have hv' := le_computeVideoPricing_price
    (mkData .video sm banners brochures illustrations packaging bilingual vb vm va sub stk scr)
  have hs : ((1198 : ℤ) : ℚ) ≤ ((P + Q : ℤ) : ℚ) := by
    exact_mod_cast by omega
  have hd : (1 : ℤ) ≤ jsRound (((P + Q : ℤ) : ℚ) * (1/5)) := by
    rw [jsRound_eq_floor]
    apply Int.le_floor.mpr
    push_cast at hs ⊢
    linarith
  omega

/-- C2 witness: one social-media design and one basic video. -/
theorem bundle_lt_sum_standalone_witness :
    0 < 1 + 0 + 0 + 0 + 0 ∧ 0 < 1 + 0 + 0 ∧
    (calculatePricing (mkData .both 1 0 0 0 0 false 1 0 0 false false false)).monthlyPrice <
      (calculatePricing (mkData .graphic 1 0 0 0 0 false 1 0 0 false false false)).monthlyPrice +
      (calculatePricing (mkData .video 1 0 0 0 0 false 1 0 0 false false false)).monthlyPrice :=
  ⟨by decide, by decide,
    bundle_lt_sum_standalone 1 0 0 0 0 false 1 0 0 false false false (by decide) (by decide)⟩

/-- C3: raising any single item count, all other fields held fixed, never
decreases the monthly price, for every service type. -/
theorem monthlyPrice_monotone_in_counts (d : PricingData) (f : CountField) (k k' : ℕ)
    (hk : k ≤ k') :
    (calculatePricing (setCount f k d)).monthlyPrice ≤
      (calculatePricing (setCount f k' d)).monthlyPrice := by
  have hkq : (k : ℚ) ≤ (k' : ℚ) := by exact_mod_cast hk
  apply monthly_mono
  · cases f <;> rfl
  · cases f <;> rfl
  · cases f <;> simp [getGraphicTotals, setCount, coerceNum] <;> linarith
  · cases f <;> simp [computeVideoPricing, setCount, coerceNum] <;> split_ifs <;> linarith

/-- C3 witness: moving the social-media design count from 2 to 5. -/
theorem monthlyPrice_monotone_in_counts_witness :
    2 ≤ 5 ∧
    (calculatePricing (setCount .smDesigns 2 sampleData)).monthlyPrice ≤
      (calculatePricing (setCount .smDesigns 5 sampleData)).monthlyPrice :=
  ⟨by decide, monthlyPrice_monotone_in_counts sampleData .smDesigns 2 5 (by decide)⟩
/-- C4: with the total required hours inside the 55-hour allotment the price
is exactly the category base (bilingual surcharge included when set); the
overage charge appears exactly when the hours are strictly above 55; all
counts zero gives exactly the base price. -/
theorem base_allotment_pricing (sm banners brochures illustrations packaging : ℕ)
    (bilingual : Bool) (vb vm va : ℕ) (sub stk scr : Bool) :
    (((calculatePricing (mkData .graphic sm banners brochures illustrations packaging
          bilingual vb vm va sub stk scr)).estimatedHours ≤ 55 →
        (calculatePricing (mkData .graphic sm banners brochures illustrations packaging
          bilingual vb vm va sub stk scr)).monthlyPrice = if bilingual then 549 else 499) ∧
      (55 < (calculatePricing (mkData .graphic sm banners brochures illustrations packaging
          bilingual vb vm va sub stk scr)).estimatedHours →
        (if bilingual then (549 : ℤ) else 499) <
          (calculatePricing (mkData .graphic sm banners brochures illustrations packaging
            bilingual vb vm va sub stk scr)).monthlyPrice)) ∧
    (((calculatePricing (mkData .video sm banners brochures illustrations packaging
          bilingual vb vm va sub stk scr)).estimatedHours ≤ 55 →
        (calculatePricing (mkData .video sm banners brochures illustrations packaging
          bilingual vb vm va sub stk scr)).monthlyPrice = 699) ∧
      (55 < (calculatePricing (mkData .video sm banners brochures illustrations packaging
          bilingual vb vm va sub stk scr)).estimatedHours →
        (699 : ℤ) < (calculatePricing (mkData .video sm banners brochures illustrations packaging
          bilingual vb vm va sub stk scr)).monthlyPrice)) ∧
    (calculatePricing (mkData .graphic 0 0 0 0 0 false 0 0 0 false false false)).monthlyPrice
      = 499 ∧
    (calculatePricing (mkData .video 0 0 0 0 0 false 0 0 0 false false false)).monthlyPrice
      = 699 := by
  refine ⟨⟨?_, ?_⟩, ⟨?_, ?_⟩, ?_, ?_⟩
  · intro h
    rw [calculatePricing_hours_graphic rfl] at h
    rw [calculatePricing_monthly_graphic rfl]
    exact graphicPrice_of_le h
  · intro h
    rw [calculatePricing_hours_graphic rfl] at h
    rw [calculatePricing_monthly_graphic rfl]
    exact graphicPrice_of_gt h
      (half_grain_ge h (graphic_hours_natgrain _ _ _ _ _ _ _ _ _ _ _ _ _))
  · intro h
    rw [calculatePricing_hours_video rfl] at h
    rw [calculatePricing_monthly_video rfl]
    exact videoPrice_of_le h
  · intro h
    rw [calculatePricing_hours_video rfl] at h
    rw [calculatePricing_monthly_video rfl]
    exact videoPrice_of_gt h
      (half_grain_ge h (video_hours_natgrain _ _ _ _ _ _ _ _ _ _ _ _ _))
  · rw [calculatePricing_monthly_graphic rfl,
      graphicPrice_of_le (by simp [getGraphicTotals, mkData, coerceNum])]
    rfl
  · rw [calculatePricing_monthly_video rfl,
      videoPrice_of_le (by simp [computeVideoPricing, mkData, coerceNum])]

/-- C4 witness: ten social-media designs stay inside the allotment and price
at the 499 base. -/
theorem base_allotment_pricing_witness :
    (calculatePricing (mkData .graphic 10 0 0 0 0 false 0 0 0 false false
      false)).estimatedHours ≤ 55 ∧
    (calculatePricing (mkData .graphic 10 0 0 0 0 false 0 0 0 false false
      false)).monthlyPrice = if false then 549 else 499 := by
  have h : (calculatePricing (mkData .graphic 10 0 0 0 0 false 0 0 0 false false
      false)).estimatedHours ≤ 55 := by
    rw [calculatePricing_hours_graphic rfl]
    simp only [getGraphicTotals, mkData, coerceNum]
    norm_num
  exact ⟨h, (base_allotment_pricing 10 0 0 0 0 false 0 0 0 false false false).1.1 h⟩

/-- A well-formed raw field coerces to a non-negative value. -/
theorem coerceNum_natLike_nonneg {r : RawField} (h : NatLike r) : 0 ≤ coerceNum r := by
  rcases h with rfl | ⟨n, rfl⟩
  · simp [coerceNum]
  · simp [coerceNum]

/-- A well-formed raw field coerces to a natural number. -/
theorem coerceNum_natLike_natCast {r : RawField} (h : NatLike r) :
    ∃ n : ℕ, coerceNum r = (n : ℚ) := by
  rcases h with rfl | ⟨n, rfl⟩
  · exact ⟨0, by simp [coerceNum]⟩
  · exact ⟨n, rfl⟩

/-- C7 (counterexample): the engine performs no clamping: the raw numeric
string `-5` enters the hours formula as the negative value `-5`. -/
theorem negative_raw_input_enters_formula :
    calculateDesignHours negInput = -5 ∧ (getGraphicTotals negInput).totalHours = -5 ∧
    ¬ (0 ≤ calculateDesignHours negInput) := by
  have h1 : calculateDesignHours negInput = -5 := by
    simp [calculateDesignHours, negInput, coerceNum]
  have h2 : (getGraphicTotals negInput).totalHours = -5 := by
    simp [getGraphicTotals, negInput, coerceNum]
  refine ⟨h1, h2, ?_⟩
  rw [h1]
  norm_num

/-- C7 (amended): a blank field defaults to 0, and when every raw field is
blank or a natural-number string the coerced quantities are natural numbers
and all hour totals entering the formulas are non-negative; nothing clamps
other inputs. -/
theorem coercion_defaults_and_wellformed_nonneg (d : PricingData)
    (h1 : NatLike d.smDesigns) (h2 : NatLike d.banners) (h3 : NatLike d.brochures)
    (h4 : NatLike d.illustrations) (h5 : NatLike d.packaging)
    (h6 : NatLike d.videoBasic) (h7 : NatLike d.videoMid) (h8 : NatLike d.videoAdvanced) :
    coerceNum RawField.blank = 0 ∧
    (∃ n : ℕ, coerceNum d.smDesigns = (n : ℚ)) ∧
    (∃ n : ℕ, coerceNum d.banners = (n : ℚ)) ∧
    (∃ n : ℕ, coerceNum d.brochures = (n : ℚ)) ∧
    (∃ n : ℕ, coerceNum d.illustrations = (n : ℚ)) ∧
    (∃ n : ℕ, coerceNum d.packaging = (n : ℚ)) ∧
    (∃ n : ℕ, coerceNum d.videoBasic = (n : ℚ)) ∧
    (∃ n : ℕ, coerceNum d.videoMid = (n : ℚ)) ∧
    (∃ n : ℕ, coerceNum d.videoAdvanced = (n : ℚ)) ∧
    0 ≤ calculateDesignHours d ∧
    0 ≤ (getGraphicTotals d).totalHours ∧
    0 ≤ (computeVideoPricing d).hours := by
  have c1 := coerceNum_natLike_nonneg h1
  have c2 := coerceNum_natLike_nonneg h2
  have c3 := coerceNum_natLike_nonneg h3
  have c4 := coerceNum_natLike_nonneg h4
  have c5 := coerceNum_natLike_nonneg h5
  have c6 := coerceNum_natLike_nonneg h6
  have c7 := coerceNum_natLike_nonneg h7
  have c8 := coerceNum_natLike_nonneg h8
  refine ⟨rfl, coerceNum_natLike_natCast h1, coerceNum_natLike_natCast h2,
    coerceNum_natLike_natCast h3, coerceNum_natLike_natCast h4, coerceNum_natLike_natCast h5,
    coerceNum_natLike_natCast h6, coerceNum_natLike_natCast h7, coerceNum_natLike_natCast h8,
    ?_, ?_, ?_⟩
  · simp only [calculateDesignHours]
    linarith
  · simp only [getGraphicTotals]
    linarith
  · simp only [computeVideoPricing]
    split_ifs <;> linarith

/-- C7 witness: the sample request, all of whose raw fields are numeric. -/
theorem coercion_defaults_and_wellformed_nonneg_witness :
    NatLike sampleData.smDesigns ∧ NatLike sampleData.banners ∧ NatLike sampleData.brochures ∧
    NatLike sampleData.illustrations ∧ NatLike sampleData.packaging ∧
    NatLike sampleData.videoBasic ∧ NatLike sampleData.videoMid ∧
    NatLike sampleData.videoAdvanced ∧
    (0 ≤ calculateDesignHours sampleData ∧ 0 ≤ (getGraphicTotals sampleData).totalHours ∧
      0 ≤ (computeVideoPricing sampleData).hours) := by
  have hA : NatLike sampleData.smDesigns := Or.inr ⟨1, rfl⟩
  have hB : NatLike sampleData.banners := Or.inr ⟨2, rfl⟩
  have hC : NatLike sampleData.brochures := Or.inr ⟨3, rfl⟩
  have hD : NatLike sampleData.illustrations := Or.inr ⟨4, rfl⟩
  have hE : NatLike sampleData.packaging := Or.inr ⟨5, rfl⟩
  have hF : NatLike sampleData.videoBasic := Or.inr ⟨6, rfl⟩
  have hG : NatLike sampleData.videoMid := Or.inr ⟨7, rfl⟩
  have hH : NatLike sampleData.videoAdvanced := Or.inr ⟨8, rfl⟩
  have hall := coercion_defaults_and_wellformed_nonneg sampleData hA hB hC hD hE hF hG hH
  exact ⟨hA, hB, hC, hD, hE, hF, hG, hH,
    hall.2.2.2.2.2.2.2.2.2.1, hall.2.2.2.2.2.2.2.2.2.2.1, hall.2.2.2.2.2.2.2.2.2.2.2⟩
/-- C9 (counterexample): 15 basic edits need 37.5 hours, which does not
exceed the 55-hour allotment, and the price is exactly the 699 base with no
overage. -/
theorem video15_within_allotment :
    (calculatePricing video15).estimatedHours = 75/2 ∧
    ¬ (55 < (calculatePricing video15).estimatedHours) ∧
    (calculatePricing video15).monthlyPrice = 699 := by
  have hh : (computeVideoPricing video15).hours = 75/2 := by
    norm_num [computeVideoPricing, video15, mkData, coerceNum]
  refine ⟨?_, ?_, ?_⟩
  · rw [calculatePricing_hours_video rfl, hh]
  · rw [calculatePricing_hours_video rfl, hh]
    norm_num
  · rw [calculatePricing_monthly_video rfl, videoPrice_of_le (by rw [hh]; norm_num)]

/-- C9 (amended): the full result of the 15-basic-edit video request: hours
37.5 inside the allotment, price exactly the 699 base, and the includes list
holding the package line and the count line (there is no overage-triggered
description in the engine). -/
theorem video15_exact_result :
    calculatePricing video15 =
      { monthlyPrice := 699, breakdown := ⟨0, 0, 0, 0, 0⟩,
        includes := ["Video Editing Package",
          "15 videos/month (mix of basic, mid-level, advanced)"],
        estimatedHours := 75/2 } := by
  have h699 : jsRound (699 : ℚ) = 699 := jsRound_eq_of (by norm_num) (by norm_num)
  norm_num [calculatePricing, video15, mkData, computeVideoPricing, coerceNum, h699]
  exact ⟨rfl, by decide⟩
